import Mathlib

/- Shallow embedding of the glh OpenGL helper library (src/src/lib.rs,
   src/src/shader.rs, src/src/vertex_array.rs, src/src/texture.rs).

   The graphics driver is external: each embedded function is parameterized
   by a record of the driver's responses (handles returned, status queries,
   error-register reads, info logs) and returns a pair of its Rust result
   and the list of state-changing driver calls it issued, in order.
   Pure queries (GetShaderiv, GetProgramiv, GetError, info-log reads) are
   not traced; their outcomes are the response-record fields.
   Rust i32 arithmetic is modeled on Int (Rust panics on overflow in debug
   builds, so the value-returning executions agree); the casts `as GLuint`
   and `as usize` that can wrap are modeled explicitly with mod 2^32 and
   mod 2^64. -/

namespace Gl

def VERTEX_SHADER : Nat := 0x8B31
def FRAGMENT_SHADER : Nat := 0x8B30
def GEOMETRY_SHADER : Nat := 0x8DD9
def TESS_CONTROL_SHADER : Nat := 0x8E88
def TESS_EVALUATION_SHADER : Nat := 0x8E87
def COMPUTE_SHADER : Nat := 0x91B9

def STREAM_DRAW : Nat := 0x88E0
def STREAM_READ : Nat := 0x88E1
def STREAM_COPY : Nat := 0x88E2
def STATIC_DRAW : Nat := 0x88E4
def STATIC_READ : Nat := 0x88E5
def STATIC_COPY : Nat := 0x88E6
def DYNAMIC_DRAW : Nat := 0x88E8
def DYNAMIC_READ : Nat := 0x88E9
def DYNAMIC_COPY : Nat := 0x88EA

def FLOAT : Nat := 0x1406
def DOUBLE : Nat := 0x140A
def BYTE : Nat := 0x1400
def UNSIGNED_BYTE : Nat := 0x1401
def SHORT : Nat := 0x1402
def UNSIGNED_SHORT : Nat := 0x1403
def INT : Nat := 0x1404
def UNSIGNED_INT : Nat := 0x1405

def ARRAY_BUFFER : Nat := 0x8892
def TEXTURE_2D : Nat := 0x0DE1

def RGB8 : Nat := 0x8051
def RGBA8 : Nat := 0x8058
def R8 : Nat := 0x8229
def RG8 : Nat := 0x822B
def RGB : Nat := 0x1907
def RGBA : Nat := 0x1908
def RED : Nat := 0x1903
def RG : Nat := 0x8227

def TEXTURE_MIN_FILTER : Nat := 0x2801
def TEXTURE_MAG_FILTER : Nat := 0x2800
def TEXTURE_WRAP_S : Nat := 0x2802
def TEXTURE_WRAP_T : Nat := 0x2803
def LINEAR : Nat := 0x2601
def CLAMP_TO_EDGE : Nat := 0x812F
def TEXTURE_SWIZZLE_G : Nat := 0x8E43
def TEXTURE_SWIZZLE_B : Nat := 0x8E44

end Gl

namespace Glh

/- The cast `x as usize` applied to an i32 value x (sign-extension then
   reinterpretation as a 64-bit unsigned index). -/
def i32AsUsize (x : Int) : Nat := (x % (2 ^ 64)).toNat

/- The cast `x as GLuint` applied to an i32 value x. -/
def i32AsU32 (x : Int) : Nat := (x % (2 ^ 32)).toNat

/- One state-changing driver call, in the order the library issues them. -/
inductive GLCall where
  | createShader (shaderType : Nat)
  | shaderSource (shader : Nat)
  | compileShader (shader : Nat)
  | deleteShader (shader : Nat)
  | createProgram
  | attachShader (program shader : Nat)
  | linkProgram (program : Nat)
  | detachShader (program shader : Nat)
  | deleteProgram (program : Nat)
  | createBuffers
  | namedBufferData (buffer : Nat) (size : Nat) (usage : Nat)
  | deleteBuffers (buffer : Nat)
  | bindVertexArray (vao : Nat)
  | bindBuffer (target buffer : Nat)
  | enableVertexAttribArray (index : Nat)
  | vertexAttribPointer (index : Nat) (size : Int) (type_ : Nat)
      (normalized : Bool) (stride : Int) (offset : Int)
  | genTextures
  | bindTexture (target texture : Nat)
  | texImage2D (internalFormat : Nat) (width height : Int) (format : Nat)
  | textureParameteri (texture pname : Nat) (value : Nat)
  | texParameteri (target pname : Nat) (value : Nat)
  deriving DecidableEq

/- Each Err return site of the library, one constructor per distinct
   formatted message (the source uses string errors). -/
inductive GlhError where
  | emptyData
  | invalidUsage (usage : Nat)
  | createBufferFailed (msg : String)
  | invalidBufferId
  | uploadFailed (msg : String)
  | invalidShaderType (shaderType : Nat)
  | createShaderFailed (name : String)
  | cstringNul
  | compileFailed (name : String) (infoLog : String)
  | createProgramFailed
  | linkFailed (infoLog : String)
  | duplicateStage (name : String)
  | emptyProgram
  | sizeMismatch (expected : Int) (got : Nat)
  | genTexturesFailed
  | bindTextureFailed
  | emptyLayout
  | invalidComponentType (type_ : Nat)
  | context (fn : String) (e : GlhError)
  deriving DecidableEq

/- Driver responses consumed by one compile_shader invocation. -/
structure ShaderResp where
  handle : Nat
  status : Bool
  infoLog : String
  deriving DecidableEq

/- Driver responses consumed by one create_program invocation. -/
structure ProgResp where
  handle : Nat
  linkStatus : Bool
  infoLog : String
  deriving DecidableEq

/- detail::shader_type_name (shader.rs lines 145-157). -/
def shader_type_name (shader_type : Nat) : Except GlhError String :=
  if shader_type = Gl.VERTEX_SHADER then .ok "Vertex"
  else if shader_type = Gl.FRAGMENT_SHADER then .ok "Fragment"
  else if shader_type = Gl.GEOMETRY_SHADER then .ok "Geometry"
  else if shader_type = Gl.TESS_CONTROL_SHADER then .ok "Tess Control"
  else if shader_type = Gl.TESS_EVALUATION_SHADER then .ok "Tess Evaluation"
  else if shader_type = Gl.COMPUTE_SHADER then .ok "Compute"
  else .error (.invalidShaderType shader_type)

/- compile_shader (shader.rs lines 5-32).  The source is the byte sequence
   of the &str argument; CString::new fails exactly when it contains an
   interior NUL byte.  Note the order in the source: gl::CreateShader is
   called before the CString conversion, and the conversion-failure return
   does not delete the created shader. -/
def compile_shader (r : ShaderResp) (source : List Nat) (shader_type : Nat) :
    Except GlhError Nat × List GLCall :=
  match shader_type_name shader_type with
  | .error e => (.error e, [])
  | .ok name =>
    let shader := r.handle
    if shader = 0 then
      (.error (.createShaderFailed name), [.createShader shader_type])
    else if source.contains 0 then
      (.error .cstringNul, [.createShader shader_type])
    else if r.status then
      (.ok shader,
        [.createShader shader_type, .shaderSource shader, .compileShader shader])
    else
      (.error (.compileFailed name r.infoLog),
        [.createShader shader_type, .shaderSource shader, .compileShader shader,
         .deleteShader shader])

/- create_program (shader.rs lines 34-67): create, attach all, link,
   detach all, then check the link status; on failure delete the program
   and return the info log. -/
def create_program (pr : ProgResp) (shaders : List Nat) :
    Except GlhError Nat × List GLCall :=
  let program := pr.handle
  if program = 0 then (.error .createProgramFailed, [.createProgram])
  else
    ((if pr.linkStatus then .ok program else .error (.linkFailed pr.infoLog)),
     .createProgram ::
       shaders.map (fun s => GLCall.attachShader program s) ++
       GLCall.linkProgram program ::
       shaders.map (fun s => GLCall.detachShader program s) ++
       (if pr.linkStatus then [] else [GLCall.deleteProgram program]))

/- ProgramBuilder (shader.rs lines 69-71): a HashMap<GLenum, GLuint> from
   shader type to shader handle, modeled as an association list in
   insertion order (every claim proved below is insensitive to the
   HashMap's unspecified iteration order). -/
structure ProgramBuilder where
  shaders : List (Nat × Nat)
  deriving DecidableEq

/- self.shaders.contains_key(&shader_type). -/
def containsKey (b : ProgramBuilder) (shader_type : Nat) : Bool :=
  b.shaders.any (fun p => p.1 = shader_type)

/- Drop for ProgramBuilder (shader.rs lines 131-139): delete every stored
   shader handle. -/
def dropTrace (b : ProgramBuilder) : List GLCall :=
  b.shaders.map (fun p => GLCall.deleteShader p.2)

/- with_shader (shader.rs lines 80-89).  The builder is taken by value, so
   every Err return drops it, running Drop and deleting all stored
   handles; on success the builder is returned and nothing is dropped. -/
def with_shader (b : ProgramBuilder) (shader_type : Nat) (source : List Nat)
    (r : ShaderResp) : Except GlhError ProgramBuilder × List GLCall :=
  if containsKey b shader_type then
    match shader_type_name shader_type with
    | .error e => (.error e, dropTrace b)
    | .ok name => (.error (.duplicateStage name), dropTrace b)
  else
    match compile_shader r source shader_type with
    | (.error e, t) => (.error e, t ++ dropTrace b)
    | (.ok shader, t) =>
        (.ok { shaders := b.shaders ++ [(shader_type, shader)] }, t)

/- with_vertex_shader .. with_compute_shader (shader.rs lines 91-119). -/
def with_vertex_shader (b : ProgramBuilder) (source : List Nat)
    (r : ShaderResp) : Except GlhError ProgramBuilder × List GLCall :=
  with_shader b Gl.VERTEX_SHADER source r

def with_fragment_shader (b : ProgramBuilder) (source : List Nat)
    (r : ShaderResp) : Except GlhError ProgramBuilder × List GLCall :=
  with_shader b Gl.FRAGMENT_SHADER source r

def with_geometry_shader (b : ProgramBuilder) (source : List Nat)
    (r : ShaderResp) : Except GlhError ProgramBuilder × List GLCall :=
  with_shader b Gl.GEOMETRY_SHADER source r

def with_tess_control_shader (b : ProgramBuilder) (source : List Nat)
    (r : ShaderResp) : Except GlhError ProgramBuilder × List GLCall :=
  with_shader b Gl.TESS_CONTROL_SHADER source r

def with_tess_evaluation_shader (b : ProgramBuilder) (source : List Nat)
    (r : ShaderResp) : Except GlhError ProgramBuilder × List GLCall :=
  with_shader b Gl.TESS_EVALUATION_SHADER source r

def with_compute_shader (b : ProgramBuilder) (source : List Nat)
    (r : ShaderResp) : Except GlhError ProgramBuilder × List GLCall :=
  with_shader b Gl.COMPUTE_SHADER source r

/- build (shader.rs lines 121-128).  self is consumed, so after
   create_program returns (or immediately, on the EmptyProgram path) the
   builder is dropped and every stored shader handle deleted. -/
def build (b : ProgramBuilder) (pr : ProgResp) :
    Except GlhError Nat × List GLCall :=
  if b.shaders.isEmpty then (.error .emptyProgram, dropTrace b)
  else
    let shader_ids := b.shaders.map (fun p => p.2)
    let r := create_program pr shader_ids
    (r.1, r.2 ++ dropTrace b)

/- Driver responses consumed by one create_buffer invocation.  createErr
   and uploadErr are the formatted get_error() messages read after
   gl::CreateBuffers and gl::NamedBufferData respectively (None when the
   error register read NO_ERROR). -/
structure BufResp where
  buffer : Nat
  createErr : Option String
  uploadErr : Option String
  deriving DecidableEq

/- The VALID_USAGES constant of create_buffer (vertex_array.rs lines
   35-45). -/
def VALID_USAGES : List Nat :=
  [Gl.STREAM_DRAW, Gl.STREAM_READ, Gl.STREAM_COPY,
   Gl.STATIC_DRAW, Gl.STATIC_READ, Gl.STATIC_COPY,
   Gl.DYNAMIC_DRAW, Gl.DYNAMIC_READ, Gl.DYNAMIC_COPY]

/- create_buffer (vertex_array.rs lines 27-79), generic over the element
   type T; tsize is std::mem::size_of::<T>(). -/
def create_buffer {T : Type} (r : BufResp) (data : List T) (tsize : Nat)
    (usage : Nat) : Except GlhError Nat × List GLCall :=
  if data.isEmpty then (.error .emptyData, [])
  else if ¬ VALID_USAGES.contains usage then (.error (.invalidUsage usage), [])
  else
    let buffer := r.buffer
    match r.createErr with
    | some msg => (.error (.createBufferFailed msg), [.createBuffers])
    | none =>
      if buffer = 0 then (.error .invalidBufferId, [.createBuffers])
      else
        let size := data.length * tsize
        match r.uploadErr with
        | some msg =>
            (.error (.uploadFailed msg),
             [.createBuffers, .namedBufferData buffer size usage,
              .deleteBuffers buffer])
        | none => (.ok buffer, [.createBuffers, .namedBufferData buffer size usage])

/- The component-size match of enable_interleaved_vertex_array_attributes
   (vertex_array.rs lines 97-107): byte width of one component, None for
   an unrecognized type. -/
def componentSize (type_ : Nat) : Option Int :=
  if type_ = Gl.FLOAT then some 4
  else if type_ = Gl.DOUBLE then some 8
  else if type_ = Gl.BYTE then some 1
  else if type_ = Gl.UNSIGNED_BYTE then some 1
  else if type_ = Gl.SHORT then some 2
  else if type_ = Gl.UNSIGNED_SHORT then some 2
  else if type_ = Gl.INT then some 4
  else if type_ = Gl.UNSIGNED_INT then some 4
  else none

/- The eight component types the match above recognizes. -/
def recognizedComponentTypes : List Nat :=
  [Gl.FLOAT, Gl.DOUBLE, Gl.BYTE, Gl.UNSIGNED_BYTE,
   Gl.SHORT, Gl.UNSIGNED_SHORT, Gl.INT, Gl.UNSIGNED_INT]

/- The attribute loop of enable_interleaved_vertex_array_attributes
   (vertex_array.rs lines 115-129): idxOff is the enumerate index and
   offset the running byte offset, both starting at 0. -/
def attribLoop (type_ : Nat) (normalized : Bool) (start_index : Int)
    (component_size stride : Int) :
    List Int → Nat → Int → List GLCall
  | [], _, _ => []
  | size :: rest, idxOff, offset =>
      GLCall.enableVertexAttribArray (i32AsU32 (start_index + (idxOff : Int))) ::
      GLCall.vertexAttribPointer (i32AsU32 (start_index + (idxOff : Int)))
        size type_ normalized stride offset ::
      attribLoop type_ normalized start_index component_size stride rest
        (idxOff + 1) (offset + size * component_size)

/- enable_interleaved_vertex_array_attributes (vertex_array.rs lines
   85-133). -/
def enable_interleaved_vertex_array_attributes (vao buffer : Nat)
    (type_ : Nat) (normalized : Bool) (start_index : Int) (sizes : List Int) :
    Except GlhError Unit × List GLCall :=
  if sizes.isEmpty then (.error .emptyLayout, [])
  else
    match componentSize type_ with
    | none => (.error (.invalidComponentType type_), [])
    | some component_size =>
      let stride := sizes.sum * component_size
      (.ok (),
       GLCall.bindVertexArray vao ::
       GLCall.bindBuffer Gl.ARRAY_BUFFER buffer ::
       attribLoop type_ normalized start_index component_size stride sizes 0 0)

/- detail::TextureFormat (texture.rs lines 88-94). -/
inductive TextureFormat where
  | RGB
  | RGBA
  | Grayscale
  | GrayscaleAlpha
  deriving DecidableEq

/- The (internal_format, gl_format, pixel_size) match of
   detail::create_texture_2d (texture.rs lines 101-106). -/
def formatParams : TextureFormat → Nat × Nat × Int
  | .RGB => (Gl.RGB8, Gl.RGB, 3)
  | .RGBA => (Gl.RGBA8, Gl.RGBA, 4)
  | .Grayscale => (Gl.R8, Gl.RED, 1)
  | .GrayscaleAlpha => (Gl.RG8, Gl.RG, 2)

/- Driver responses consumed by one detail::create_texture_2d invocation:
   the handle written by gl::GenTextures and whether the error-register
   read after gl::BindTexture reported an error. -/
structure TexResp where
  texture : Nat
  bindErr : Bool
  deriving DecidableEq

/- The grayscale swizzle match of detail::create_texture_2d (texture.rs
   lines 142-149). -/
def swizzleCalls : TextureFormat → List GLCall
  | .Grayscale | .GrayscaleAlpha =>
      [GLCall.texParameteri Gl.TEXTURE_2D Gl.TEXTURE_SWIZZLE_G Gl.RED,
       GLCall.texParameteri Gl.TEXTURE_2D Gl.TEXTURE_SWIZZLE_B Gl.RED]
  | _ => []

/- detail::create_texture_2d (texture.rs lines 96-154).  size0/size1 are
   the i32 entries of the size array; data is the byte slice.  Note:
   the bind-failure return path does not delete the generated texture,
   and gl::TexImage2D's outcome is never checked. -/
def detail_create_texture_2d (r : TexResp) (size0 size1 : Int)
    (data : List Nat) (format : TextureFormat) :
    Except GlhError Nat × List GLCall :=
  let p := formatParams format
  if data.length ≠ i32AsUsize (size0 * size1 * p.2.2) then
    (.error (.sizeMismatch (size0 * size1 * p.2.2) data.length), [])
  else
    let texture := r.texture
    if texture = 0 then (.error .genTexturesFailed, [.genTextures])
    else if r.bindErr then
      (.error .bindTextureFailed,
       [.genTextures, .bindTexture Gl.TEXTURE_2D texture])
    else
      (.ok texture,
       [GLCall.genTextures,
        GLCall.bindTexture Gl.TEXTURE_2D texture,
        GLCall.texImage2D p.1 size0 size1 p.2.1,
        GLCall.textureParameteri texture Gl.TEXTURE_MIN_FILTER Gl.LINEAR,
        GLCall.textureParameteri texture Gl.TEXTURE_MAG_FILTER Gl.LINEAR,
        GLCall.textureParameteri texture Gl.TEXTURE_WRAP_S Gl.CLAMP_TO_EDGE,
        GLCall.textureParameteri texture Gl.TEXTURE_WRAP_T Gl.CLAMP_TO_EDGE] ++
       swizzleCalls format)

/- create_texture_2d_rgb (texture.rs lines 7-18); the map_err prefix is
   modeled by the context constructor. -/
def create_texture_2d_rgb (r : TexResp) (size0 size1 : Int)
    (data : List Nat) : Except GlhError Nat × List GLCall :=
  if data.length ≠ i32AsUsize (size0 * size1 * 3) then
    (.error (.sizeMismatch (size0 * size1 * 3) data.length), [])
  else
    let res := detail_create_texture_2d r size0 size1 data .RGB
    (res.1.mapError (GlhError.context "create_texture_2d_rgb"), res.2)

/- create_texture_2d_rgba (texture.rs lines 20-31). -/
def create_texture_2d_rgba (r : TexResp) (size0 size1 : Int)
    (data : List Nat) : Except GlhError Nat × List GLCall :=
  if data.length ≠ i32AsUsize (size0 * size1 * 4) then
    (.error (.sizeMismatch (size0 * size1 * 4) data.length), [])
  else
    let res := detail_create_texture_2d r size0 size1 data .RGBA
    (res.1.mapError (GlhError.context "create_texture_2d_rgba"), res.2)

/- create_texture_2d_grayscale (texture.rs lines 33-44). -/
def create_texture_2d_grayscale (r : TexResp) (size0 size1 : Int)
    (data : List Nat) : Except GlhError Nat × List GLCall :=
  if data.length ≠ i32AsUsize (size0 * size1) then
    (.error (.sizeMismatch (size0 * size1) data.length), [])
  else
    let res := detail_create_texture_2d r size0 size1 data .Grayscale
    (res.1.mapError (GlhError.context "create_texture_2d_grayscale"), res.2)

/- create_texture_2d_grayscale_alpha (texture.rs lines 46-57). -/
def create_texture_2d_grayscale_alpha (r : TexResp) (size0 size1 : Int)
    (data : List Nat) : Except GlhError Nat × List GLCall :=
  if data.length ≠ i32AsUsize (size0 * size1 * 2) then
    (.error (.sizeMismatch (size0 * size1 * 2) data.length), [])
  else
    let res := detail_create_texture_2d r size0 size1 data .GrayscaleAlpha
    (res.1.mapError (GlhError.context "create_texture_2d_grayscale_alpha"), res.2)

/- Bytes per pixel of each public entry point, as the spec names them. -/
def bytes_per_pixel : TextureFormat → Int
  | .RGB => 3
  | .RGBA => 4
  | .Grayscale => 1
  | .GrayscaleAlpha => 2

/- Dispatch from a format to its public create_texture_2d_* entry point
   (the arm load_texture_2d selects for each channel depth). -/
def create_texture_2d_for (format : TextureFormat) (r : TexResp)
    (size0 size1 : Int) (data : List Nat) :
    Except GlhError Nat × List GLCall :=
  match format with
  | .RGB => create_texture_2d_rgb r size0 size1 data
  | .RGBA => create_texture_2d_rgba r size0 size1 data
  | .Grayscale => create_texture_2d_grayscale r size0 size1 data
  | .GrayscaleAlpha => create_texture_2d_grayscale_alpha r size0 size1 data

/- Whether an error is (possibly under a context prefix) one of the
   SizeMismatch return sites. -/
def isSizeMismatch : GlhError → Bool
  | .sizeMismatch _ _ => true
  | .context _ e => isSizeMismatch e
  | _ => false

/- Whether a (result, trace) pair failed with SizeMismatch. -/
def failsWithSizeMismatch (res : Except GlhError Nat × List GLCall) : Bool :=
  match res.1 with
  | .error e => isSizeMismatch e
  | .ok _ => false

end Glh

/- Embedding of the copies in src/src/lib.rs, which duplicates the texts of
   create_buffer and enable_interleaved_vertex_array_attributes from
   vertex_array.rs and of shader_type_name, compile_shader, create_program
   and ProgramBuilder from shader.rs (shader_type_name is a top-level fn in
   lib.rs rather than living in a detail module).  The duplicated
   ProgramBuilder struct has the same single HashMap field and is modeled
   by the same Lean structure Glh.ProgramBuilder; the driver-response
   records are likewise shared, since both files call the same gl API. -/

namespace GlhLib

open Glh (GLCall GlhError ShaderResp ProgResp BufResp ProgramBuilder i32AsU32)

/- shader_type_name (lib.rs lines 84-96). -/
def shader_type_name (shader_type : Nat) : Except GlhError String :=
  if shader_type = Gl.VERTEX_SHADER then .ok "Vertex"
  else if shader_type = Gl.FRAGMENT_SHADER then .ok "Fragment"
  else if shader_type = Gl.GEOMETRY_SHADER then .ok "Geometry"
  else if shader_type = Gl.TESS_CONTROL_SHADER then .ok "Tess Control"
  else if shader_type = Gl.TESS_EVALUATION_SHADER then .ok "Tess Evaluation"
  else if shader_type = Gl.COMPUTE_SHADER then .ok "Compute"
  else .error (.invalidShaderType shader_type)

/- compile_shader (lib.rs lines 98-125). -/
def compile_shader (r : ShaderResp) (source : List Nat) (shader_type : Nat) :
    Except GlhError Nat × List GLCall :=
  match shader_type_name shader_type with
  | .error e => (.error e, [])
  | .ok name =>
    let shader := r.handle
    if shader = 0 then
      (.error (.createShaderFailed name), [.createShader shader_type])
    else if source.contains 0 then
      (.error .cstringNul, [.createShader shader_type])
    else if r.status then
      (.ok shader,
        [.createShader shader_type, .shaderSource shader, .compileShader shader])
    else
      (.error (.compileFailed name r.infoLog),
        [.createShader shader_type, .shaderSource shader, .compileShader shader,
         .deleteShader shader])

/- create_program (lib.rs lines 127-160). -/
def create_program (pr : ProgResp) (shaders : List Nat) :
    Except GlhError Nat × List GLCall :=
  let program := pr.handle
  if program = 0 then (.error .createProgramFailed, [.createProgram])
  else
    ((if pr.linkStatus then .ok program else .error (.linkFailed pr.infoLog)),
     .createProgram ::
       shaders.map (fun s => GLCall.attachShader program s) ++
       GLCall.linkProgram program ::
       shaders.map (fun s => GLCall.detachShader program s) ++
       (if pr.linkStatus then [] else [GLCall.deleteProgram program]))

/- self.shaders.contains_key(&shader_type) for the lib.rs builder. -/
def containsKey (b : ProgramBuilder) (shader_type : Nat) : Bool :=
  b.shaders.any (fun p => p.1 = shader_type)

/- Drop for the lib.rs ProgramBuilder (lib.rs lines 224-232). -/
def dropTrace (b : ProgramBuilder) : List GLCall :=
  b.shaders.map (fun p => GLCall.deleteShader p.2)

/- ProgramBuilder::with_shader (lib.rs lines 173-182). -/
def with_shader (b : ProgramBuilder) (shader_type : Nat) (source : List Nat)
    (r : ShaderResp) : Except GlhError ProgramBuilder × List GLCall :=
  if containsKey b shader_type then
    match shader_type_name shader_type with
    | .error e => (.error e, dropTrace b)
    | .ok name => (.error (.duplicateStage name), dropTrace b)
  else
    match compile_shader r source shader_type with
    | (.error e, t) => (.error e, t ++ dropTrace b)
    | (.ok shader, t) =>
        (.ok { shaders := b.shaders ++ [(shader_type, shader)] }, t)

/- with_vertex_shader .. with_compute_shader (lib.rs lines 184-212). -/
def with_vertex_shader (b : ProgramBuilder) (source : List Nat)
    (r : ShaderResp) : Except GlhError ProgramBuilder × List GLCall :=
  with_shader b Gl.VERTEX_SHADER source r

def with_fragment_shader (b : ProgramBuilder) (source : List Nat)
    (r : ShaderResp) : Except GlhError ProgramBuilder × List GLCall :=
  with_shader b Gl.FRAGMENT_SHADER source r

def with_geometry_shader (b : ProgramBuilder) (source : List Nat)
    (r : ShaderResp) : Except GlhError ProgramBuilder × List GLCall :=
  with_shader b Gl.GEOMETRY_SHADER source r

def with_tess_control_shader (b : ProgramBuilder) (source : List Nat)
    (r : ShaderResp) : Except GlhError ProgramBuilder × List GLCall :=
  with_shader b Gl.TESS_CONTROL_SHADER source r

def with_tess_evaluation_shader (b : ProgramBuilder) (source : List Nat)
    (r : ShaderResp) : Except GlhError ProgramBuilder × List GLCall :=
  with_shader b Gl.TESS_EVALUATION_SHADER source r

def with_compute_shader (b : ProgramBuilder) (source : List Nat)
    (r : ShaderResp) : Except GlhError ProgramBuilder × List GLCall :=
  with_shader b Gl.COMPUTE_SHADER source r

/- ProgramBuilder::build (lib.rs lines 214-221). -/
def build (b : ProgramBuilder) (pr : ProgResp) :
    Except GlhError Nat × List GLCall :=
  if b.shaders.isEmpty then (.error .emptyProgram, dropTrace b)
  else
    let shader_ids := b.shaders.map (fun p => p.2)
    let r := create_program pr shader_ids
    (r.1, r.2 ++ dropTrace b)

/- The VALID_USAGES constant of create_buffer (lib.rs lines 38-48). -/
def VALID_USAGES : List Nat :=
  [Gl.STREAM_DRAW, Gl.STREAM_READ, Gl.STREAM_COPY,
   Gl.STATIC_DRAW, Gl.STATIC_READ, Gl.STATIC_COPY,
   Gl.DYNAMIC_DRAW, Gl.DYNAMIC_READ, Gl.DYNAMIC_COPY]

/- create_buffer (lib.rs lines 30-82). -/
def create_buffer {T : Type} (r : BufResp) (data : List T) (tsize : Nat)
    (usage : Nat) : Except GlhError Nat × List GLCall :=
  if data.isEmpty then (.error .emptyData, [])
  else if ¬ VALID_USAGES.contains usage then (.error (.invalidUsage usage), [])
  else
    let buffer := r.buffer
    match r.createErr with
    | some msg => (.error (.createBufferFailed msg), [.createBuffers])
    | none =>
      if buffer = 0 then (.error .invalidBufferId, [.createBuffers])
      else
        let size := data.length * tsize
        match r.uploadErr with
        | some msg =>
            (.error (.uploadFailed msg),
             [.createBuffers, .namedBufferData buffer size usage,
              .deleteBuffers buffer])
        | none => (.ok buffer, [.createBuffers, .namedBufferData buffer size usage])

/- The component-size match of lib.rs's
   enable_interleaved_vertex_array_attributes (lib.rs lines 249-259). -/
def componentSize (type_ : Nat) : Option Int :=
  if type_ = Gl.FLOAT then some 4
  else if type_ = Gl.DOUBLE then some 8
  else if type_ = Gl.BYTE then some 1
  else if type_ = Gl.UNSIGNED_BYTE then some 1
  else if type_ = Gl.SHORT then some 2
  else if type_ = Gl.UNSIGNED_SHORT then some 2
  else if type_ = Gl.INT then some 4
  else if type_ = Gl.UNSIGNED_INT then some 4
  else none

/- The attribute loop of lib.rs's
   enable_interleaved_vertex_array_attributes (lib.rs lines 267-281). -/
def attribLoop (type_ : Nat) (normalized : Bool) (start_index : Int)
    (component_size stride : Int) :
    List Int → Nat → Int → List GLCall
  | [], _, _ => []
  | size :: rest, idxOff, offset =>
      GLCall.enableVertexAttribArray (i32AsU32 (start_index + (idxOff : Int))) ::
      GLCall.vertexAttribPointer (i32AsU32 (start_index + (idxOff : Int)))
        size type_ normalized stride offset ::
      attribLoop type_ normalized start_index component_size stride rest
        (idxOff + 1) (offset + size * component_size)

/- enable_interleaved_vertex_array_attributes (lib.rs lines 237-285). -/
def enable_interleaved_vertex_array_attributes (vao buffer : Nat)
    (type_ : Nat) (normalized : Bool) (start_index : Int) (sizes : List Int) :
    Except GlhError Unit × List GLCall :=
  if sizes.isEmpty then (.error .emptyLayout, [])
  else
    match componentSize type_ with
    | none => (.error (.invalidComponentType type_), [])
    | some component_size =>
      let stride := sizes.sum * component_size
      (.ok (),
       GLCall.bindVertexArray vao ::
       GLCall.bindBuffer Gl.ARRAY_BUFFER buffer ::
       attribLoop type_ normalized start_index component_size stride sizes 0 0)

end GlhLib

/- Helper lemmas. -/

theorem i32AsU32_eq_toNat (x : Int) (h0 : 0 ≤ x) (h1 : x < 2 ^ 32) :
    Glh.i32AsU32 x = x.toNat := by
  unfold Glh.i32AsU32
  rw [Int.emod_eq_of_lt h0 h1]

theorem i32AsUsize_eq_toNat (x : Int) (h0 : 0 ≤ x) (h1 : x < 2 ^ 64) :
    Glh.i32AsUsize x = x.toNat := by
  unfold Glh.i32AsUsize
  rw [Int.emod_eq_of_lt h0 h1]

theorem componentSize_eq_none_of_not_mem (t : Nat)
    (h : t ∉ Glh.recognizedComponentTypes) : Glh.componentSize t = none := by
  simp only [Glh.recognizedComponentTypes, List.mem_cons, List.not_mem_nil,
    or_false, not_or] at h
  obtain ⟨h1, h2, h3, h4, h5, h6, h7, h8⟩ := h
  simp [Glh.componentSize, h1, h2, h3, h4, h5, h6, h7, h8]

theorem attribLoop_lib_eq (type_ : Nat) (normalized : Bool)
    (start_index component_size stride : Int) (l : List Int) (idxOff : Nat)
    (offset : Int) :
    GlhLib.attribLoop type_ normalized start_index component_size stride l
        idxOff offset
      = Glh.attribLoop type_ normalized start_index component_size stride l
          idxOff offset := by
  induction l generalizing idxOff offset with
  | nil => rfl
  | cons a t ih => simp [GlhLib.attribLoop, Glh.attribLoop, ih]

theorem map_bind_general {α β γ : Type} (g : α → β) (f : β → List γ)
    (l : List α) : (l.map g).flatMap f = l.flatMap (fun a => f (g a)) := by
  induction l with
  | nil => rfl
  | cons a t ih => simp [List.flatMap_cons, ih]

theorem bind_congr_fun {α β : Type} (l : List α) (f g : α → List β)
    (h : ∀ a, f a = g a) : l.flatMap f = l.flatMap g :=
  congrArg l.flatMap (funext h)

/- Closed form of the attribute loop: starting from enumerate index idxOff
   and byte offset `offset`, attribute i of the remaining list l is enabled
   at absolute index start_index + idxOff + i with the shared stride and
   byte offset `offset` plus the prefix sum of l[0..i] times the component
   width. -/
theorem attribLoop_eq (type_ : Nat) (normalized : Bool)
    (start_index component_size stride : Int) (l : List Int) (idxOff : Nat)
    (offset : Int) (hlo : 0 ≤ start_index + (idxOff : Int))
    (hhi : start_index + (idxOff : Int) + l.length ≤ 2 ^ 32) :
    Glh.attribLoop type_ normalized start_index component_size stride l
        idxOff offset
      = (List.range l.length).flatMap (fun i =>
          [Glh.GLCall.enableVertexAttribArray
             (start_index + (idxOff : Int) + (i : Int)).toNat,
           Glh.GLCall.vertexAttribPointer
             (start_index + (idxOff : Int) + (i : Int)).toNat
             (l.getD i 0) type_ normalized stride
             (offset + (l.take i).sum * component_size)]) := by
  induction l generalizing idxOff offset with
  | nil => simp [Glh.attribLoop]
  | cons a t ih =>
    simp only [List.length_cons] at hhi
    have hlt : start_index + (idxOff : Int) < 2 ^ 32 := by omega
    have hidx : Glh.i32AsU32 (start_index + (idxOff : Int))
        = (start_index + (idxOff : Int)).toNat :=
      i32AsU32_eq_toNat _ hlo hlt
    have hlo2 : 0 ≤ start_index + ((idxOff + 1 : Nat) : Int) := by
      push_cast
      omega
    have hhi2 : start_index + ((idxOff + 1 : Nat) : Int) + t.length ≤ 2 ^ 32 := by
      push_cast
      push_cast at hhi
      omega
    simp only [Glh.attribLoop, hidx,
      ih (idxOff + 1) (offset + a * component_size) hlo2 hhi2,
      List.length_cons, List.range_succ_eq_map, List.flatMap_cons,
      map_bind_general]
    simp only [List.getD_cons_zero, List.take_zero, List.sum_nil, zero_mul,
      add_zero, Nat.cast_zero, List.cons_append, List.nil_append]
    refine congrArg₂ _ rfl (congrArg₂ _ rfl ?_)
    refine bind_congr_fun _ _ _ (fun i => ?_)
    have harith : start_index + ((idxOff + 1 : Nat) : Int) + (i : Int)
        = start_index + (idxOff : Int) + ((i + 1 : Nat) : Int) := by
      push_cast
      ring
    have hoff : offset + a * component_size + (t.take i).sum * component_size
        = offset + ((a :: t).take (i + 1)).sum * component_size := by
      rw [List.take_succ_cons, List.sum_cons]
      ring
    rw [harith, hoff, List.getD_cons_succ]

theorem isSizeMismatch_context (s : String) (e : Glh.GlhError) :
    Glh.isSizeMismatch (.context s e) = Glh.isSizeMismatch e := rfl

/- When the size check passes, no later failure of detail::create_texture_2d
   is a SizeMismatch. -/
theorem failsWithSizeMismatch_detail_false (r : Glh.TexResp)
    (size0 size1 : Int) (data : List Nat) (format : Glh.TextureFormat)
    (hlen : data.length
      = Glh.i32AsUsize (size0 * size1 * (Glh.formatParams format).2.2)) :
    Glh.failsWithSizeMismatch
      (Glh.detail_create_texture_2d r size0 size1 data format) = false := by
  unfold Glh.detail_create_texture_2d Glh.failsWithSizeMismatch
  by_cases ht : r.texture = 0 <;> by_cases hb : r.bindErr <;>
    simp [hlen, ht, hb, Glh.isSizeMismatch]

/- The map_err context wrapper neither creates nor hides a SizeMismatch. -/
theorem failsWithSizeMismatch_mapError (s : String)
    (res : Except Glh.GlhError Nat × List Glh.GLCall) :
    Glh.failsWithSizeMismatch (res.1.mapError (Glh.GlhError.context s), res.2)
      = Glh.failsWithSizeMismatch res := by
  obtain ⟨e, t⟩ := res
  cases e <;> rfl

/- Claim theorems. -/

/-- C2 (failing input): the builder invariant that every shader handle it
creates is deleted exactly once fails when the source string contains an
interior NUL byte: with_shader on a fresh builder with source bytes
[97, 0, 98] and a driver returning shader handle 5 issues CreateShader,
then fails the CString conversion and returns the error without ever
issuing DeleteShader(5) — also no later call can, since the handle was
never stored and the builder is consumed. -/
theorem claim_C2_nul_source_shader_leak :
    Glh.with_shader ⟨[]⟩ Gl.VERTEX_SHADER [97, 0, 98] ⟨5, true, "log"⟩
      = (.error .cstringNul, [Glh.GLCall.createShader Gl.VERTEX_SHADER]) ∧
    (Glh.with_shader ⟨[]⟩ Gl.VERTEX_SHADER [97, 0, 98] ⟨5, true, "log"⟩).2.count
      (Glh.GLCall.deleteShader 5) = 0 := by
  constructor
  · rfl
  · rfl

/-- C5 (failing input): the no-leak-on-failure policy fails in
detail::create_texture_2d: with a driver that returns texture handle 7
from GenTextures and then reports an error after BindTexture, the
function returns the bind error with the trace ending right there — the
generated texture 7 is never deleted (the source has no DeleteTextures
call at all). -/
theorem claim_C5_texture_bind_failure_leak :
    Glh.detail_create_texture_2d ⟨7, true⟩ 1 1 [0, 0, 0] .RGB
      = (.error .bindTextureFailed,
         [Glh.GLCall.genTextures, Glh.GLCall.bindTexture Gl.TEXTURE_2D 7]) := by
  rfl

/-- C3 (counterexample): with_shader consumes the builder, so the
DuplicateStage failure drops it and deletes the stored handle: a builder
holding shader 5 for the Vertex stage, asked to add Vertex again, fails
with DuplicateStage but its trace is exactly DeleteShader(5) — the stored
handle IS destroyed by the failing call, contradicting the claim. -/
theorem claim_C3_counterexample :
    Glh.with_shader ⟨[(Gl.VERTEX_SHADER, 5)]⟩ Gl.VERTEX_SHADER [97]
      ⟨9, true, "log"⟩
      = (.error (.duplicateStage "Vertex"), [Glh.GLCall.deleteShader 5]) ∧
    Glh.GLCall.deleteShader 5 ∈
      (Glh.with_shader ⟨[(Gl.VERTEX_SHADER, 5)]⟩ Gl.VERTEX_SHADER [97]
        ⟨9, true, "log"⟩).2 := by
  constructor
  · rfl
  · decide

/-- C3 (amended): for every builder already holding stage S, a second
with_shader for S fails with DuplicateStage before any compilation is
attempted (the trace contains no CreateShader call and the stored map is
never altered); however, since with_shader consumes the builder, the
failing call drops it, so the trace is exactly one DeleteShader per
stored handle — including stage S's. -/
theorem claim_C3_duplicate_stage (b : Glh.ProgramBuilder) (shader_type : Nat)
    (source : List Nat) (r : Glh.ShaderResp) (name : String)
    (hdup : Glh.containsKey b shader_type = true)
    (hname : Glh.shader_type_name shader_type = .ok name) :
    Glh.with_shader b shader_type source r
      = (.error (.duplicateStage name), Glh.dropTrace b) ∧
    ∀ t, Glh.GLCall.createShader t ∉
      (Glh.with_shader b shader_type source r).2 := by
  have heq : Glh.with_shader b shader_type source r
      = (.error (.duplicateStage name), Glh.dropTrace b) := by
    unfold Glh.with_shader
    rw [hdup, hname]
    rfl
  refine ⟨heq, ?_⟩
  intro t
  rw [heq]
  simp [Glh.dropTrace]

/-- C3 (witness): the amended theorem applied to a builder holding shader
7 for the Vertex stage. -/
theorem claim_C3_witness :
    Glh.containsKey ⟨[(Gl.VERTEX_SHADER, 7)]⟩ Gl.VERTEX_SHADER = true ∧
    Glh.with_shader ⟨[(Gl.VERTEX_SHADER, 7)]⟩ Gl.VERTEX_SHADER [98]
        ⟨3, true, "x"⟩
      = (.error (.duplicateStage "Vertex"),
         Glh.dropTrace ⟨[(Gl.VERTEX_SHADER, 7)]⟩) :=
  ⟨by decide,
   (claim_C3_duplicate_stage ⟨[(Gl.VERTEX_SHADER, 7)]⟩ Gl.VERTEX_SHADER [98]
     ⟨3, true, "x"⟩ "Vertex" (by decide) rfl).1⟩

/-- C4: build on a builder with zero stages fails with EmptyProgram and
issues no driver call; otherwise (when the driver returns a nonzero
program handle) it creates the program, attaches every owned shader,
links, detaches every shader regardless of link outcome, deletes the
program and fails with LinkError carrying the info log exactly when the
link failed, returns the program handle on success, and in either case
finally deletes every owned shader as the consumed builder drops. -/
theorem claim_C4_build (b : Glh.ProgramBuilder) (pr : Glh.ProgResp) :
    (b.shaders = [] → Glh.build b pr = (.error .emptyProgram, [])) ∧
    (b.shaders ≠ [] → pr.handle ≠ 0 →
      Glh.build b pr
        = ((if pr.linkStatus then .ok pr.handle
            else .error (.linkFailed pr.infoLog)),
           Glh.GLCall.createProgram ::
             b.shaders.map (fun p => Glh.GLCall.attachShader pr.handle p.2) ++
             Glh.GLCall.linkProgram pr.handle ::
             b.shaders.map (fun p => Glh.GLCall.detachShader pr.handle p.2) ++
             (if pr.linkStatus then []
              else [Glh.GLCall.deleteProgram pr.handle]) ++
             b.shaders.map (fun p => Glh.GLCall.deleteShader p.2))) := by
  obtain ⟨s⟩ := b
  constructor
  · intro h
    subst h
    rfl
  · intro hne hp
    cases s with
    | nil => exact absurd rfl hne
    | cons a t =>
      simp only [Glh.build, Glh.create_program, Glh.dropTrace, List.isEmpty_cons,
        Bool.false_eq_true, if_false, if_neg hp, List.map_map]
      cases hls : pr.linkStatus <;>
        simp [Function.comp_def, List.append_assoc]

/-- C4 (witness): a builder owning shader 5 for the Vertex stage, with a
driver that returns program handle 3 and a successful link. -/
theorem claim_C4_witness :
    (Glh.ProgramBuilder.mk [(Gl.VERTEX_SHADER, 5)]).shaders ≠ [] ∧
    (3 : Nat) ≠ 0 ∧
    Glh.build ⟨[(Gl.VERTEX_SHADER, 5)]⟩ ⟨3, true, "log"⟩
      = (.ok 3,
         [Glh.GLCall.createProgram, Glh.GLCall.attachShader 3 5,
          Glh.GLCall.linkProgram 3, Glh.GLCall.detachShader 3 5,
          Glh.GLCall.deleteShader 5]) := by
  refine ⟨by decide, by decide, ?_⟩
  exact (claim_C4_build ⟨[(Gl.VERTEX_SHADER, 5)]⟩ ⟨3, true, "log"⟩).2
    (by decide) (by decide)

/-- C6: enable_interleaved_vertex_array_attributes fails with EmptyLayout
on every empty sizes sequence, and with InvalidComponentType on every
component type outside the recognized eight (with a nonempty sizes list,
since the empty check runs first); in both validation-failure cases the
trace is empty — no attribute is enabled and no binding is touched. -/
theorem claim_C6_interleaved_validation (vao buffer type_ : Nat)
    (normalized : Bool) (start_index : Int) (sizes : List Int) :
    (sizes = [] →
      Glh.enable_interleaved_vertex_array_attributes vao buffer type_
        normalized start_index sizes = (.error .emptyLayout, [])) ∧
    (sizes ≠ [] → type_ ∉ Glh.recognizedComponentTypes →
      Glh.enable_interleaved_vertex_array_attributes vao buffer type_
        normalized start_index sizes
        = (.error (.invalidComponentType type_), [])) := by
  constructor
  · intro h
    subst h
    rfl
  · intro hne hty
    cases sizes with
    | nil => exact absurd rfl hne
    | cons a t =>
      simp [Glh.enable_interleaved_vertex_array_attributes,
        componentSize_eq_none_of_not_mem type_ hty]

/-- C6 (witness): the empty-layout case at sizes = [] and the
invalid-type case at component type 999 with sizes = [1]. -/
theorem claim_C6_witness :
    Glh.enable_interleaved_vertex_array_attributes 1 2 Gl.FLOAT false 0 []
      = (.error .emptyLayout, []) ∧
    (999 : Nat) ∉ Glh.recognizedComponentTypes ∧
    Glh.enable_interleaved_vertex_array_attributes 1 2 999 false 0 [1]
      = (.error (.invalidComponentType 999), []) :=
  ⟨(claim_C6_interleaved_validation 1 2 Gl.FLOAT false 0 []).1 rfl,
   by decide,
   (claim_C6_interleaved_validation 1 2 999 false 0 [1]).2 (by decide)
     (by decide)⟩

/-- C7: create_buffer fails with EmptyData on every empty data slice with
an empty trace (no driver allocation), fails with InvalidUsageHint on
every usage outside the nine recognized constants, again with an empty
trace, and when the upload reports an error it deletes the buffer it had
allocated and returns UploadError — the trace is CreateBuffers,
NamedBufferData, DeleteBuffers and the result is the error, so no
half-initialized handle is returned. -/
theorem claim_C7_create_buffer (T : Type) (r : Glh.BufResp) (data : List T)
    (tsize usage : Nat) :
    (data = [] →
      Glh.create_buffer r data tsize usage = (.error .emptyData, [])) ∧
    (data ≠ [] → usage ∉ Glh.VALID_USAGES →
      Glh.create_buffer r data tsize usage
        = (.error (.invalidUsage usage), [])) ∧
    (∀ msg, data ≠ [] → usage ∈ Glh.VALID_USAGES →
      r.createErr = none → r.buffer ≠ 0 → r.uploadErr = some msg →
      Glh.create_buffer r data tsize usage
        = (.error (.uploadFailed msg),
           [Glh.GLCall.createBuffers,
            Glh.GLCall.namedBufferData r.buffer (data.length * tsize) usage,
            Glh.GLCall.deleteBuffers r.buffer])) := by
  refine ⟨?_, ?_, ?_⟩
  · intro h
    subst h
    rfl
  · intro hne husage
    cases data with
    | nil => exact absurd rfl hne
    | cons a t => simp [Glh.create_buffer, husage]
  · intro msg hne husage hce hbuf hue
    cases data with
    | nil => exact absurd rfl hne
    | cons a t => simp [Glh.create_buffer, husage, hce, hbuf, hue]

/-- C7 (witness): the three branches at concrete inputs — empty data,
usage 12345 outside the nine constants, and a driver whose upload
reports an error after allocating buffer 4. -/
theorem claim_C7_witness :
    Glh.create_buffer ⟨4, none, none⟩ ([] : List Nat) 8 Gl.STATIC_DRAW
      = (.error .emptyData, []) ∧
    (12345 : Nat) ∉ Glh.VALID_USAGES ∧
    Glh.create_buffer ⟨4, none, none⟩ [7] 8 12345
      = (.error (.invalidUsage 12345), []) ∧
    Glh.create_buffer ⟨4, none, some "oom"⟩ [7] 8 Gl.STATIC_DRAW
      = (.error (.uploadFailed "oom"),
         [Glh.GLCall.createBuffers, Glh.GLCall.namedBufferData 4 8
            Gl.STATIC_DRAW, Glh.GLCall.deleteBuffers 4]) :=
  ⟨(claim_C7_create_buffer Nat ⟨4, none, none⟩ [] 8 Gl.STATIC_DRAW).1 rfl,
   by decide,
   (claim_C7_create_buffer Nat ⟨4, none, none⟩ [7] 8 12345).2.1 (by decide)
     (by decide),
   (claim_C7_create_buffer Nat ⟨4, none, some "oom"⟩ [7] 8
     Gl.STATIC_DRAW).2.2 "oom" (by decide) (by decide) rfl (by decide) rfl⟩

/-- C10: the definitions duplicated between lib.rs and the module files
are behaviorally equivalent — for every input and every driver-response
record, each lib.rs copy returns the same result and issues the same
driver-call trace as its counterpart in shader.rs / vertex_array.rs. -/
theorem claim_C10_lib_module_equivalence :
    (∀ ty, GlhLib.shader_type_name ty = Glh.shader_type_name ty) ∧
    (∀ r source ty,
      GlhLib.compile_shader r source ty = Glh.compile_shader r source ty) ∧
    (∀ pr shaders,
      GlhLib.create_program pr shaders = Glh.create_program pr shaders) ∧
    (∀ b ty source r,
      GlhLib.with_shader b ty source r = Glh.with_shader b ty source r) ∧
    (∀ b source r, GlhLib.with_vertex_shader b source r
      = Glh.with_vertex_shader b source r) ∧
    (∀ b source r, GlhLib.with_fragment_shader b source r
      = Glh.with_fragment_shader b source r) ∧
    (∀ b source r, GlhLib.with_geometry_shader b source r
      = Glh.with_geometry_shader b source r) ∧
    (∀ b source r, GlhLib.with_tess_control_shader b source r
      = Glh.with_tess_control_shader b source r) ∧
    (∀ b source r, GlhLib.with_tess_evaluation_shader b source r
      = Glh.with_tess_evaluation_shader b source r) ∧
    (∀ b source r, GlhLib.with_compute_shader b source r
      = Glh.with_compute_shader b source r) ∧
    (∀ b, GlhLib.dropTrace b = Glh.dropTrace b) ∧
    (∀ b pr, GlhLib.build b pr = Glh.build b pr) ∧
    (∀ (T : Type) (r : Glh.BufResp) (data : List T) tsize usage,
      GlhLib.create_buffer r data tsize usage
        = Glh.create_buffer r data tsize usage) ∧
    (∀ vao buffer ty normalized start_index sizes,
      GlhLib.enable_interleaved_vertex_array_attributes vao buffer ty
          normalized start_index sizes
        = Glh.enable_interleaved_vertex_array_attributes vao buffer ty
            normalized start_index sizes) :=
  ⟨fun ty => rfl,
   fun r source ty => rfl,
   fun pr shaders => rfl,
   fun b ty source r => rfl,
   fun b source r => rfl,
   fun b source r => rfl,
   fun b source r => rfl,
   fun b source r => rfl,
   fun b source r => rfl,
   fun b source r => rfl,
   fun b => rfl,
   fun b pr => rfl,
   fun T r data tsize usage => rfl,
   fun vao buffer ty normalized start_index sizes => by
     have hcs : GlhLib.componentSize = Glh.componentSize := rfl
     simp only [GlhLib.enable_interleaved_vertex_array_attributes,
       Glh.enable_interleaved_vertex_array_attributes, hcs, attribLoop_lib_eq]⟩

/-- C1: for every non-empty sizes list and recognized component type (and
any start index for which no u32 wrap occurs), the call succeeds, binds
the vertex array and the array buffer, and then, for attribute i in
increasing index order, enables absolute index start_index + i and points
it at the shared stride (sum of sizes) * component width with byte offset
(sum of sizes[0..i]) * component width. -/
theorem claim_C1_interleaved_layout (vao buffer type_ : Nat)
    (normalized : Bool) (start_index : Int) (sizes : List Int)
    (component_width : Int)
    (hw : Glh.componentSize type_ = some component_width)
    (hne : sizes ≠ [])
    (hlo : 0 ≤ start_index)
    (hhi : start_index + sizes.length ≤ 2 ^ 32) :
    Glh.enable_interleaved_vertex_array_attributes vao buffer type_
        normalized start_index sizes
      = (.ok (),
         Glh.GLCall.bindVertexArray vao ::
         Glh.GLCall.bindBuffer Gl.ARRAY_BUFFER buffer ::
         (List.range sizes.length).flatMap (fun i =>
           [Glh.GLCall.enableVertexAttribArray (start_index + (i : Int)).toNat,
            Glh.GLCall.vertexAttribPointer (start_index + (i : Int)).toNat
              (sizes.getD i 0) type_ normalized
              (sizes.sum * component_width)
              ((sizes.take i).sum * component_width)])) := by
  have hlo0 : 0 ≤ start_index + ((0 : Nat) : Int) := by
    push_cast
    omega
  have hhi0 : start_index + ((0 : Nat) : Int) + sizes.length ≤ 2 ^ 32 := by
    push_cast
    omega
  cases sizes with
  | nil => exact absurd rfl hne
  | cons a t =>
    simp only [Glh.enable_interleaved_vertex_array_attributes,
      List.isEmpty_cons, Bool.false_eq_true, if_false, hw,
      attribLoop_eq type_ normalized start_index component_width
        ((a :: t).sum * component_width) (a :: t) 0 0 hlo0 hhi0]
    refine congrArg₂ _ rfl (congrArg₂ _ rfl (congrArg₂ _ rfl ?_))
    refine bind_congr_fun _ _ _ (fun i => ?_)
    simp

/-- C1 (witness): two float attributes of sizes [3, 2] starting at index
1: stride 20, offsets 0 and 12, enabled at indices 1 and 2. -/
theorem claim_C1_witness :
    Glh.componentSize Gl.FLOAT = some 4 ∧
    ([3, 2] : List Int) ≠ [] ∧
    Glh.enable_interleaved_vertex_array_attributes 10 20 Gl.FLOAT false 1
        [3, 2]
      = (.ok (),
         [Glh.GLCall.bindVertexArray 10,
          Glh.GLCall.bindBuffer Gl.ARRAY_BUFFER 20,
          Glh.GLCall.enableVertexAttribArray 1,
          Glh.GLCall.vertexAttribPointer 1 3 Gl.FLOAT false 20 0,
          Glh.GLCall.enableVertexAttribArray 2,
          Glh.GLCall.vertexAttribPointer 2 2 Gl.FLOAT false 20 12]) := by
  refine ⟨rfl, by decide, ?_⟩
  have h := claim_C1_interleaved_layout 10 20 Gl.FLOAT false 1 [3, 2] 4 rfl
    (by decide) (by decide) (by decide)
  exact h.trans (by rfl)

/-- C8: for each of the four pixel formats, texture creation through the
matching public entry point fails with SizeMismatch exactly when the data
length differs from width * height * bytes_per_pixel(format), for every
size pair whose expected byte count fits in a nonnegative i32. -/
theorem claim_C8_texture_size_mismatch (format : Glh.TextureFormat)
    (r : Glh.TexResp) (size0 size1 : Int) (data : List Nat)
    (h0 : 0 ≤ size0 * size1 * Glh.bytes_per_pixel format)
    (h1 : size0 * size1 * Glh.bytes_per_pixel format < 2 ^ 31) :
    Glh.failsWithSizeMismatch
        (Glh.create_texture_2d_for format r size0 size1 data) = true
      ↔ (data.length : Int) ≠ size0 * size1 * Glh.bytes_per_pixel format := by
  have h64 : size0 * size1 * Glh.bytes_per_pixel format < 2 ^ 64 :=
    lt_trans h1 (by norm_num)
  have husize : Glh.i32AsUsize (size0 * size1 * Glh.bytes_per_pixel format)
      = (size0 * size1 * Glh.bytes_per_pixel format).toNat :=
    i32AsUsize_eq_toNat _ h0 h64
  cases format with
  | RGB =>
    simp only [Glh.bytes_per_pixel] at h0 husize ⊢
    simp only [Glh.create_texture_2d_for, Glh.create_texture_2d_rgb]
    by_cases hm : data.length = Glh.i32AsUsize (size0 * size1 * 3)
    · rw [if_neg (not_not_intro hm), failsWithSizeMismatch_mapError,
        failsWithSizeMismatch_detail_false r size0 size1 data .RGB hm]
      rw [husize] at hm
      simp only [Bool.false_eq_true, false_iff, ne_eq, not_not]
      omega
    · rw [if_pos hm]
      rw [husize] at hm
      simp only [Glh.failsWithSizeMismatch, Glh.isSizeMismatch, true_iff,
        ne_eq]
      omega
  | RGBA =>
    simp only [Glh.bytes_per_pixel] at h0 husize ⊢
    simp only [Glh.create_texture_2d_for, Glh.create_texture_2d_rgba]
    by_cases hm : data.length = Glh.i32AsUsize (size0 * size1 * 4)
    · rw [if_neg (not_not_intro hm), failsWithSizeMismatch_mapError,
        failsWithSizeMismatch_detail_false r size0 size1 data .RGBA hm]
      rw [husize] at hm
      simp only [Bool.false_eq_true, false_iff, ne_eq, not_not]
      omega
    · rw [if_pos hm]
      rw [husize] at hm
      simp only [Glh.failsWithSizeMismatch, Glh.isSizeMismatch, true_iff,
        ne_eq]
      omega
  | Grayscale =>
    simp only [Glh.bytes_per_pixel, mul_one] at h0 husize ⊢
    simp only [Glh.create_texture_2d_for, Glh.create_texture_2d_grayscale]
    by_cases hm : data.length = Glh.i32AsUsize (size0 * size1)
    · have hm1 : data.length
          = Glh.i32AsUsize (size0 * size1 * (Glh.formatParams .Grayscale).2.2) := by
        simpa [Glh.formatParams] using hm
      rw [if_neg (not_not_intro hm), failsWithSizeMismatch_mapError,
        failsWithSizeMismatch_detail_false r size0 size1 data .Grayscale hm1]
      rw [husize] at hm
      simp only [Bool.false_eq_true, false_iff, ne_eq, not_not]
      omega
    · rw [if_pos hm]
      rw [husize] at hm
      simp only [Glh.failsWithSizeMismatch, Glh.isSizeMismatch, true_iff,
        ne_eq]
      omega
  | GrayscaleAlpha =>
    simp only [Glh.bytes_per_pixel] at h0 husize ⊢
    simp only [Glh.create_texture_2d_for,
      Glh.create_texture_2d_grayscale_alpha]
    by_cases hm : data.length = Glh.i32AsUsize (size0 * size1 * 2)
    · rw [if_neg (not_not_intro hm), failsWithSizeMismatch_mapError,
        failsWithSizeMismatch_detail_false r size0 size1 data .GrayscaleAlpha
          hm]
      rw [husize] at hm
      simp only [Bool.false_eq_true, false_iff, ne_eq, not_not]
      omega
    · rw [if_pos hm]
      rw [husize] at hm
      simp only [Glh.failsWithSizeMismatch, Glh.isSizeMismatch, true_iff,
        ne_eq]
      omega

/-- C8 (witness): a 2 x 2 RGB texture expects 12 bytes, so an 11-byte
slice (one short) fails with SizeMismatch, and a 1 x 1 Grayscale texture
with 0 bytes (one short of 1) also fails; the matching 12-byte RGB slice
does not fail with SizeMismatch. -/
theorem claim_C8_witness :
    Glh.failsWithSizeMismatch
        (Glh.create_texture_2d_for .RGB ⟨7, false⟩ 2 2 (List.replicate 11 0))
      = true ∧
    Glh.failsWithSizeMismatch
        (Glh.create_texture_2d_for .Grayscale ⟨7, false⟩ 1 1 [])
      = true ∧
    Glh.failsWithSizeMismatch
        (Glh.create_texture_2d_for .RGB ⟨7, false⟩ 2 2 (List.replicate 12 0))
      = false := by
  refine ⟨?_, ?_, ?_⟩
  · exact (claim_C8_texture_size_mismatch .RGB ⟨7, false⟩ 2 2
      (List.replicate 11 0) (by decide) (by decide)).mpr (by decide)
  · exact (claim_C8_texture_size_mismatch .Grayscale ⟨7, false⟩ 1 1 []
      (by decide) (by decide)).mpr (by decide)
  · have h := (claim_C8_texture_size_mismatch .RGB ⟨7, false⟩ 2 2
      (List.replicate 12 0) (by decide) (by decide))
    have h2 : ¬ ((((List.replicate 12 (0 : Nat)).length : Int))
        ≠ 2 * 2 * Glh.bytes_per_pixel .RGB) := by decide
    cases hfs : Glh.failsWithSizeMismatch
        (Glh.create_texture_2d_for .RGB ⟨7, false⟩ 2 2 (List.replicate 12 0)) with
    | false => rfl
    | true => exact absurd (h.mp hfs) h2

/-- C9: on every successful texture creation, the trace ends with the
green-from-red and blue-from-red swizzle calls exactly for the Grayscale
and GrayscaleAlpha formats, no TexParameteri swizzle call at all is made
for RGB and RGBA, and the created texture handle is returned. -/
theorem claim_C9_grayscale_swizzle (format : Glh.TextureFormat)
    (r : Glh.TexResp) (size0 size1 : Int) (data : List Nat)
    (hlen : data.length
      = Glh.i32AsUsize (size0 * size1 * (Glh.formatParams format).2.2))
    (ht : r.texture ≠ 0) (hb : r.bindErr = false) :
    ((Glh.GLCall.texParameteri Gl.TEXTURE_2D Gl.TEXTURE_SWIZZLE_G Gl.RED
        ∈ (Glh.detail_create_texture_2d r size0 size1 data format).2 ∧
      Glh.GLCall.texParameteri Gl.TEXTURE_2D Gl.TEXTURE_SWIZZLE_B Gl.RED
        ∈ (Glh.detail_create_texture_2d r size0 size1 data format).2)
      ↔ (format = .Grayscale ∨ format = .GrayscaleAlpha)) ∧
    ((format = .RGB ∨ format = .RGBA) →
      ∀ pname value, Glh.GLCall.texParameteri Gl.TEXTURE_2D pname value
        ∉ (Glh.detail_create_texture_2d r size0 size1 data format).2) ∧
    (Glh.detail_create_texture_2d r size0 size1 data format).1
      = .ok r.texture := by
  have heq : Glh.detail_create_texture_2d r size0 size1 data format
      = (.ok r.texture,
         [Glh.GLCall.genTextures,
          Glh.GLCall.bindTexture Gl.TEXTURE_2D r.texture,
          Glh.GLCall.texImage2D (Glh.formatParams format).1 size0 size1
            (Glh.formatParams format).2.1,
          Glh.GLCall.textureParameteri r.texture Gl.TEXTURE_MIN_FILTER
            Gl.LINEAR,
          Glh.GLCall.textureParameteri r.texture Gl.TEXTURE_MAG_FILTER
            Gl.LINEAR,
          Glh.GLCall.textureParameteri r.texture Gl.TEXTURE_WRAP_S
            Gl.CLAMP_TO_EDGE,
          Glh.GLCall.textureParameteri r.texture Gl.TEXTURE_WRAP_T
            Gl.CLAMP_TO_EDGE] ++
         Glh.swizzleCalls format) := by
    unfold Glh.detail_create_texture_2d
    simp [hlen, ht, hb]
  rw [heq]
  cases format <;>
    simp [Glh.swizzleCalls, Gl.TEXTURE_2D, Gl.TEXTURE_SWIZZLE_G,
      Gl.TEXTURE_SWIZZLE_B, Gl.RED]

/-- C9 (witness): a successful 1 x 1 Grayscale creation carries both
swizzle calls, and a successful 1 x 1 RGB creation makes no
TexParameteri call with the swizzle-G name. -/
theorem claim_C9_witness :
    (Glh.GLCall.texParameteri Gl.TEXTURE_2D Gl.TEXTURE_SWIZZLE_G Gl.RED
        ∈ (Glh.detail_create_texture_2d ⟨7, false⟩ 1 1 [5] .Grayscale).2 ∧
      Glh.GLCall.texParameteri Gl.TEXTURE_2D Gl.TEXTURE_SWIZZLE_B Gl.RED
        ∈ (Glh.detail_create_texture_2d ⟨7, false⟩ 1 1 [5] .Grayscale).2) ∧
    Glh.GLCall.texParameteri Gl.TEXTURE_2D Gl.TEXTURE_SWIZZLE_G Gl.RED
      ∉ (Glh.detail_create_texture_2d ⟨7, false⟩ 1 1 [5, 5, 5] .RGB).2 := by
  constructor
  · exact (claim_C9_grayscale_swizzle .Grayscale ⟨7, false⟩ 1 1 [5]
      (by decide) (by decide) rfl).1.mpr (Or.inl rfl)
  · exact (claim_C9_grayscale_swizzle .RGB ⟨7, false⟩ 1 1 [5, 5, 5]
      (by decide) (by decide) rfl).2.1 (Or.inl rfl) Gl.TEXTURE_SWIZZLE_G
      Gl.RED
